import Mathlib

/-!
Shallow embedding of the extraction–deduplication–cross-link pipeline of
`populate_aircraft_db` (files `extractor.py` and `pipeline.py`), together with
theorems settling the specification claims about it.

Python strings are modelled by Lean `String`; the handful of Python string
operations the pipeline uses (`strip`, `replace(" ", "_")`, `lower`,
`"_".join`, slicing `[:60]`) are embedded as character-list operations below.
Python `dict` accumulators (which preserve insertion order and update in
place) are modelled by association lists with an order-preserving upsert.
JSON values that may be absent or `null` are modelled by `Option`; numeric
JSON payloads, which the merge logic forwards but never inspects, are
modelled by `Int`.
-/

namespace AircraftDB

/-! ### Python string primitives -/

/-- Whitespace test used by Python `str.strip` (ASCII approximation). -/
def isWs (c : Char) : Bool := c.isWhitespace

/-- Python `s.strip()`: remove trailing, then leading, whitespace. -/
def pyStrip (s : String) : String :=
  String.mk (List.dropWhile isWs (((s.toList.reverse).dropWhile isWs).reverse))

/-- Python `s.replace(" ", "_")`: a single-character replacement is a character map. -/
def pyUnderscore (s : String) : String :=
  String.mk (s.toList.map fun c => if c = ' ' then '_' else c)

/-- Python `s.lower()` (ASCII). -/
def pyLower (s : String) : String :=
  String.mk (s.toList.map Char.toLower)

/-- Python `sep.join(parts)`. -/
def pyJoin (sep : String) : List String → String
  | [] => ""
  | [x] => x
  | x :: y :: xs => x ++ sep ++ pyJoin sep (y :: xs)

/-- Python `s[:n]`: the first `n` characters. -/
def pyTake (n : Nat) (s : String) : String := String.mk (s.toList.take n)

/-- Python truthiness of an optional string (`None` and `""` are falsy). -/
def pyTruthy : Option String → Bool
  | none => false
  | some t => decide (t ≠ "")

/-! ### Data model: per-chunk observations (raw LLM output, `extractor.py` schema) -/

/-- A `(documentId, chunkIndex)` provenance entry (`extractor.py:256`). -/
structure Source where
  documentId : String
  chunkIndex : Nat
deriving DecidableEq

/-- Chunk-level context available during deduplication: the provenance entry
and the chunk's `aircraftType` (`extractor.py:252-256`). -/
structure Ctx where
  source : Source
  aircraftType : String
deriving DecidableEq

/-- One raw `fault_codes` observation from a chunk's JSON bundle. -/
structure FaultCodeObs where
  code : Option String := none
  description : Option String := none
  severity_levels : Option (List String) := none
  ata_chapter : Option String := none
  immediate_action : Option String := none
deriving DecidableEq

/-- One raw `part_numbers` observation. -/
structure PartNumberObs where
  number : Option String := none
  component_name : Option String := none
  ata_reference : Option String := none
deriving DecidableEq

/-- One raw `operating_limits` observation. -/
structure OperatingLimitObs where
  parameter : Option String := none
  unit : Option String := none
  regime : Option String := none
  min_value : Option Int := none
  max_value : Option Int := none
deriving DecidableEq

/-- One raw `maintenance_tasks` observation. -/
structure MaintenanceTaskObs where
  task_id : Option String := none
  description : Option String := none
  interval : Option Int := none
  interval_unit : Option String := none
  duration_hours : Option Int := none
  personnel_count : Option Int := none
  personnel_type : Option String := none
deriving DecidableEq

/-- One raw `ata_chapters` observation (`chapter` already stringified,
mirroring `str(ata.get("chapter", ""))` at `extractor.py:340`). -/
structure ATAChapterObs where
  chapter : Option String := none
  title : Option String := none
deriving DecidableEq

/-- The five-list observation bundle for one chunk (`EMPTY_RESULT` keys). -/
structure Entities where
  fault_codes : List FaultCodeObs := []
  part_numbers : List PartNumberObs := []
  operating_limits : List OperatingLimitObs := []
  maintenance_tasks : List MaintenanceTaskObs := []
  ata_chapters : List ATAChapterObs := []
deriving DecidableEq

/-- One element of `all_extractions` (`extractor.py:654-659`). -/
structure Extraction where
  documentId : String
  chunkIndex : Nat
  aircraftType : String
  entities : Entities
deriving DecidableEq

/-! ### Data model: merged canonical records (`_collect_and_deduplicate` values) -/

/-- Merged FaultCode record (`extractor.py:264-271`). -/
structure FaultCodeRec where
  code : String
  description : String
  severity_levels : List String
  ata_chapter : String
  immediate_action : String
  sources : List Source
deriving DecidableEq

/-- Merged PartNumber record (`extractor.py:283-288`). -/
structure PartNumberRec where
  number : String
  component_name : String
  ata_reference : String
  sources : List Source
deriving DecidableEq

/-- Merged OperatingLimit record (`extractor.py:300-309`). -/
structure OperatingLimitRec where
  limitId : String
  parameter : String
  unit : String
  regime : String
  min_value : Option Int
  max_value : Option Int
  aircraftType : String
  sources : List Source
deriving DecidableEq

/-- Merged MaintenanceTask record (`extractor.py:325-334`). -/
structure MaintenanceTaskRec where
  taskId : String
  description : String
  interval : Option Int
  intervalUnit : String
  durationHours : Option Int
  personnelCount : Option Int
  personnelType : String
  sources : List Source
deriving DecidableEq

/-- Merged ATAChapter record (`extractor.py:344-348`). -/
structure ATAChapterRec where
  chapter : String
  title : String
  sources : List Source
deriving DecidableEq

/-! ### Python dicts as order-preserving association lists -/

/-- Insertion-ordered map, the model of a Python `dict` accumulator. -/
abbrev AList (ρ : Type) := List (String × ρ)

/-- Dict lookup. -/
def alookup {ρ : Type} (m : AList ρ) (k : String) : Option ρ :=
  match m with
  | [] => none
  | (k₁, v) :: rest => if k₁ = k then some v else alookup rest k

/-- The Python `if k not in d: d[k] = v₀ else: mutate d[k]` idiom: update in
place when the key is present, append at the end otherwise. -/
def upsert {ρ : Type} (m : AList ρ) (k : String) (v₀ : ρ) (f : ρ → ρ) : AList ρ :=
  match m with
  | [] => [(k, v₀)]
  | (k₁, v) :: rest => if k₁ = k then (k₁, f v) :: rest else (k₁, v) :: upsert rest k v₀ f

/-- One dedup step for one observation: skip when the key is absent/blank,
otherwise create or merge — the common shape of the five loop bodies of
`_collect_and_deduplicate` (`extractor.py:251-353`). -/
def stepObs {σ ρ : Type} (keyFn : σ → Option String) (mkFn : σ → ρ) (mergeFn : ρ → σ → ρ)
    (m : AList ρ) (o : σ) : AList ρ :=
  match keyFn o with
  | none => m
  | some k => upsert m k (mkFn o) fun r => mergeFn r o

/-- Fold a whole observation list through `stepObs`. -/
def foldObs {σ ρ : Type} (keyFn : σ → Option String) (mkFn : σ → ρ) (mergeFn : ρ → σ → ρ)
    (m : AList ρ) (os : List σ) : AList ρ :=
  os.foldl (stepObs keyFn mkFn mergeFn) m

/-! ### Canonical-key derivation (`extractor.py:230-238`) -/

/-- The per-part slug of `_make_limit_id`: `p.strip().replace(" ", "_").lower()`. -/
def slugOf (p : String) : String :=
  pyLower (pyUnderscore (pyStrip p))

/-- `_make_limit_id` (`extractor.py:230-232`):
`"_".join(p.strip().replace(" ", "_").lower() for p in parts if p.strip())`. -/
def make_limit_id (parameter regime aircraft_type : String) : String :=
  pyJoin "_" (([parameter, regime, aircraft_type].filter fun p => decide (pyStrip p ≠ "")).map
    slugOf)

/-- `_make_task_id` (`extractor.py:235-238`): a truthy `task_id` is stripped and
used as-is; otherwise a slug of the first 60 characters of the description. -/
def make_task_id (task_id : Option String) (description : String) : String :=
  if pyTruthy task_id then pyStrip (task_id.getD "")
  else pyLower (pyUnderscore (pyStrip (pyTake 60 description)))

/-- A reported task id that does not defeat `_make_task_id`: when truthy
(non-null, non-empty) it is not whitespace-only. -/
def goodTaskId : Option String → Bool
  | none => true
  | some t => (t == "") || !(pyStrip t == "")

/-! ### The five dedup loop bodies of `_collect_and_deduplicate` -/

/-- FaultCode key (`extractor.py:260-262`): stripped `code`, blank means skip. -/
def fcKey (o : Ctx × FaultCodeObs) : Option String :=
  let code := pyStrip (o.2.code.getD "")
  if code = "" then none else some code

/-- FaultCode creation (`extractor.py:263-271`). -/
def fcMk (o : Ctx × FaultCodeObs) : FaultCodeRec :=
  { code := pyStrip (o.2.code.getD "")
    description := o.2.description.getD ""
    severity_levels := o.2.severity_levels.getD []
    ata_chapter := o.2.ata_chapter.getD ""
    immediate_action := o.2.immediate_action.getD ""
    sources := [o.1.source] }

/-- FaultCode merge (`extractor.py:272-275`): append the source; a strictly
longer description replaces the stored one. -/
def fcMerge (r : FaultCodeRec) (o : Ctx × FaultCodeObs) : FaultCodeRec :=
  let r₁ := { r with sources := r.sources ++ [o.1.source] }
  if (o.2.description.getD "").length > r₁.description.length then
    { r₁ with description := o.2.description.getD "" }
  else r₁

/-- PartNumber key (`extractor.py:279-281`). -/
def pnKey (o : Ctx × PartNumberObs) : Option String :=
  let number := pyStrip (o.2.number.getD "")
  if number = "" then none else some number

/-- PartNumber creation (`extractor.py:282-288`). -/
def pnMk (o : Ctx × PartNumberObs) : PartNumberRec :=
  { number := pyStrip (o.2.number.getD "")
    component_name := o.2.component_name.getD ""
    ata_reference := o.2.ata_reference.getD ""
    sources := [o.1.source] }

/-- PartNumber merge (`extractor.py:289-290`): source append only. -/
def pnMerge (r : PartNumberRec) (o : Ctx × PartNumberObs) : PartNumberRec :=
  { r with sources := r.sources ++ [o.1.source] }

/-- OperatingLimit key (`extractor.py:294-298`): skip when parameter or regime
is blank, else `_make_limit_id(param, regime, aircraft_type)`. -/
def olKey (o : Ctx × OperatingLimitObs) : Option String :=
  let param := pyStrip (o.2.parameter.getD "")
  let regime := pyStrip (o.2.regime.getD "")
  if param = "" ∨ regime = "" then none
  else some (make_limit_id param regime o.1.aircraftType)

/-- OperatingLimit creation (`extractor.py:299-309`). -/
def olMk (o : Ctx × OperatingLimitObs) : OperatingLimitRec :=
  let param := pyStrip (o.2.parameter.getD "")
  let regime := pyStrip (o.2.regime.getD "")
  { limitId := make_limit_id param regime o.1.aircraftType
    parameter := param
    unit := o.2.unit.getD ""
    regime := regime
    min_value := o.2.min_value
    max_value := o.2.max_value
    aircraftType := o.1.aircraftType
    sources := [o.1.source] }

/-- OperatingLimit merge (`extractor.py:310-316`): append the source; non-null
bounds from the later observation overwrite the stored ones. -/
def olMerge (r : OperatingLimitRec) (o : Ctx × OperatingLimitObs) : OperatingLimitRec :=
  let r₁ := { r with sources := r.sources ++ [o.1.source] }
  let r₂ := match o.2.min_value with
            | some v => { r₁ with min_value := some v }
            | none => r₁
  match o.2.max_value with
  | some v => { r₂ with max_value := some v }
  | none => r₂

/-- MaintenanceTask key (`extractor.py:320-323`): skip when the description is
blank, else `_make_task_id(task_id, desc)`. -/
def mtKey (o : Ctx × MaintenanceTaskObs) : Option String :=
  let desc := pyStrip (o.2.description.getD "")
  if desc = "" then none else some (make_task_id o.2.task_id desc)

/-- MaintenanceTask creation (`extractor.py:324-334`). -/
def mtMk (o : Ctx × MaintenanceTaskObs) : MaintenanceTaskRec :=
  let desc := pyStrip (o.2.description.getD "")
  { taskId := make_task_id o.2.task_id desc
    description := desc
    interval := o.2.interval
    intervalUnit := o.2.interval_unit.getD ""
    durationHours := o.2.duration_hours
    personnelCount := o.2.personnel_count
    personnelType := o.2.personnel_type.getD ""
    sources := [o.1.source] }

/-- MaintenanceTask merge (`extractor.py:335-336`): source append only. -/
def mtMerge (r : MaintenanceTaskRec) (o : Ctx × MaintenanceTaskObs) : MaintenanceTaskRec :=
  { r with sources := r.sources ++ [o.1.source] }

/-- ATAChapter key (`extractor.py:340-342`): stripped stringified chapter. -/
def ataKey (o : Ctx × ATAChapterObs) : Option String :=
  let chapter := pyStrip (o.2.chapter.getD "")
  if chapter = "" then none else some chapter

/-- ATAChapter creation (`extractor.py:343-348`). -/
def ataMk (o : Ctx × ATAChapterObs) : ATAChapterRec :=
  { chapter := pyStrip (o.2.chapter.getD "")
    title := o.2.title.getD ""
    sources := [o.1.source] }

/-- ATAChapter merge (`extractor.py:349-353`): append the source; a strictly
longer title replaces the stored one. -/
def ataMerge (r : ATAChapterRec) (o : Ctx × ATAChapterObs) : ATAChapterRec :=
  let r₁ := { r with sources := r.sources ++ [o.1.source] }
  if (o.2.title.getD "").length > r₁.title.length then
    { r₁ with title := o.2.title.getD "" }
  else r₁

/-! ### `_collect_and_deduplicate` (`extractor.py:241-361`) -/

/-- The five per-type accumulator dicts (`extractor.py:245-249`). -/
structure DedupState where
  fault_codes : AList FaultCodeRec := []
  part_numbers : AList PartNumberRec := []
  operating_limits : AList OperatingLimitRec := []
  maintenance_tasks : AList MaintenanceTaskRec := []
  ata_chapters : AList ATAChapterRec := []
deriving DecidableEq

/-- Chunk context of one `all_extractions` element (`extractor.py:252-256`). -/
def extractionCtx (e : Extraction) : Ctx :=
  { source := { documentId := e.documentId, chunkIndex := e.chunkIndex }
    aircraftType := e.aircraftType }

/-- Body of the outer `for extraction in all_extractions` loop: run the five
entity loops of one chunk over the accumulator dicts. -/
def processExtraction (st : DedupState) (e : Extraction) : DedupState :=
  let c := extractionCtx e
  { fault_codes :=
      e.entities.fault_codes.foldl (fun m fc => stepObs fcKey fcMk fcMerge m (c, fc))
        st.fault_codes
    part_numbers :=
      e.entities.part_numbers.foldl (fun m pn => stepObs pnKey pnMk pnMerge m (c, pn))
        st.part_numbers
    operating_limits :=
      e.entities.operating_limits.foldl (fun m ol => stepObs olKey olMk olMerge m (c, ol))
        st.operating_limits
    maintenance_tasks :=
      e.entities.maintenance_tasks.foldl (fun m mt => stepObs mtKey mtMk mtMerge m (c, mt))
        st.maintenance_tasks
    ata_chapters :=
      e.entities.ata_chapters.foldl (fun m ata => stepObs ataKey ataMk ataMerge m (c, ata))
        st.ata_chapters }

/-- `_collect_and_deduplicate`: fold every chunk's bundle into the five
accumulator dicts, starting from empty ones. -/
def collect_and_deduplicate (all_extractions : List Extraction) : DedupState :=
  all_extractions.foldl processExtraction {}

/-! ### Flattened per-type observation streams (processing order) -/

/-- All fault-code observations across all chunks, each tagged with its
chunk context, in processing order. -/
def fcStream (all_extractions : List Extraction) : List (Ctx × FaultCodeObs) :=
  all_extractions.flatMap fun e => e.entities.fault_codes.map fun o => (extractionCtx e, o)

/-- All part-number observations, tagged and ordered. -/
def pnStream (all_extractions : List Extraction) : List (Ctx × PartNumberObs) :=
  all_extractions.flatMap fun e => e.entities.part_numbers.map fun o => (extractionCtx e, o)

/-- All operating-limit observations, tagged and ordered. -/
def olStream (all_extractions : List Extraction) : List (Ctx × OperatingLimitObs) :=
  all_extractions.flatMap fun e => e.entities.operating_limits.map fun o => (extractionCtx e, o)

/-- All maintenance-task observations, tagged and ordered. -/
def mtStream (all_extractions : List Extraction) : List (Ctx × MaintenanceTaskObs) :=
  all_extractions.flatMap fun e => e.entities.maintenance_tasks.map fun o => (extractionCtx e, o)

/-- All ATA-chapter observations, tagged and ordered. -/
def ataStream (all_extractions : List Extraction) : List (Ctx × ATAChapterObs) :=
  all_extractions.flatMap fun e => e.entities.ata_chapters.map fun o => (extractionCtx e, o)

/-- The observations of a stream that carry a given canonical key. -/
def matching {σ : Type} [DecidableEq σ] (keyFn : σ → Option String) (k : String)
    (os : List σ) : List σ :=
  os.filter fun o => decide (keyFn o = some k)

/-- The fault-code observations that carry canonical key `k`. -/
def fcMatching (all_extractions : List Extraction) (k : String) : List (Ctx × FaultCodeObs) :=
  matching fcKey k (fcStream all_extractions)

/-- The part-number observations that carry canonical key `k`. -/
def pnMatching (all_extractions : List Extraction) (k : String) : List (Ctx × PartNumberObs) :=
  matching pnKey k (pnStream all_extractions)

/-- The operating-limit observations that carry canonical key `k`. -/
def olMatching (all_extractions : List Extraction) (k : String) :
    List (Ctx × OperatingLimitObs) :=
  matching olKey k (olStream all_extractions)

/-- The maintenance-task observations that carry canonical key `k`. -/
def mtMatching (all_extractions : List Extraction) (k : String) :
    List (Ctx × MaintenanceTaskObs) :=
  matching mtKey k (mtStream all_extractions)

/-- The ATA-chapter observations that carry canonical key `k`. -/
def ataMatching (all_extractions : List Extraction) (k : String) : List (Ctx × ATAChapterObs) :=
  matching ataKey k (ataStream all_extractions)

/-- The merged record a run of same-key observations produces: the first one
creates the record, the rest fold through the merge function. -/
def mergedOf {σ ρ : Type} (mkFn : σ → ρ) (mergeFn : ρ → σ → ρ) : List σ → Option ρ
  | [] => none
  | o :: rest => some (rest.foldl mergeFn (mkFn o))

/-- One step of "last non-null wins". -/
def lastSomeStep {α : Type} (acc x : Option α) : Option α :=
  match x with
  | some v => some v
  | none => acc

/-- The last non-null value of a list of optional values, if any. -/
def lastSome {α : Type} (l : List (Option α)) : Option α :=
  l.foldl lastSomeStep none

/-! ### `extract_entities_from_chunk` (`extractor.py:208-222`)

The LLM call and the JSON parse (including its repair pass) are external
effects; each is modelled by an outcome that either returns a value or raises.
The catch-all `except Exception` of the source corresponds to the `raised`
branches below; totality of the Lean function is the model of "never
propagates an exception". -/

/-- Outcome of an external call: a returned value, or a raised exception. -/
inductive CallResult (α : Type) where
  | ok : α → CallResult α
  | raised : CallResult α
deriving DecidableEq

/-- A successfully parsed JSON object, before the missing-key fill-in of
`extractor.py:216-218`: each of the five entity keys may be absent. -/
structure ParsedBundle where
  fault_codes : Option (List FaultCodeObs) := none
  part_numbers : Option (List PartNumberObs) := none
  operating_limits : Option (List OperatingLimitObs) := none
  maintenance_tasks : Option (List MaintenanceTaskObs) := none
  ata_chapters : Option (List ATAChapterObs) := none
deriving DecidableEq

/-- `EMPTY_RESULT` (`extractor.py:74-80`): all five entity keys map to `[]`. -/
def EMPTY_RESULT : Entities := {}

/-- `extract_entities_from_chunk`: call the LLM, parse the response, fill in
missing keys with `[]`; if the call or the parse raises, return a copy of
`EMPTY_RESULT`. -/
def extract_entities_from_chunk (llm_call : CallResult String)
    (parseResponse : String → CallResult ParsedBundle) : Entities :=
  match llm_call with
  | .raised => EMPTY_RESULT
  | .ok content =>
    match parseResponse content with
    | .raised => EMPTY_RESULT
    | .ok pb =>
      { fault_codes := pb.fault_codes.getD []
        part_numbers := pb.part_numbers.getD []
        operating_limits := pb.operating_limits.getD []
        maintenance_tasks := pb.maintenance_tasks.getD []
        ata_chapters := pb.ata_chapters.getD [] }

/-! ### Cross-linker rule 2 (`_link_to_existing_graph`, `extractor.py:561-568`)

The Cypher query is
`MATCH (me:MaintenanceEvent) WHERE me.fault IS NOT NULL AND me.fault <> ''
 MATCH (fc:FaultCode {code: me.fault}) MERGE (me)-[:CLASSIFIED_AS]->(fc)`:
for every event whose `fault` property is non-null and non-empty, an edge to
every FaultCode node whose `code` equals that fault string exactly. -/

/-- A pre-existing MaintenanceEvent node (fields the query touches). -/
structure MaintenanceEvent where
  eventId : String
  fault : Option String
deriving DecidableEq

/-- A persisted FaultCode node (fields the query touches). -/
structure FaultCodeNode where
  code : String
  description : String
deriving DecidableEq

/-- The CLASSIFIED_AS edge set produced by cross-linker rule 2. -/
def classified_as_edges (events : List MaintenanceEvent) (codes : List FaultCodeNode) :
    List (MaintenanceEvent × FaultCodeNode) :=
  events.flatMap fun me =>
    match me.fault with
    | none => []
    | some f =>
      if f = "" then []
      else (codes.filter fun fc => decide (fc.code = f)).map fun fc => (me, fc)

/-- Substring test: `need` occurs contiguously in `hay`. -/
def containsSub (hay need : String) : Bool :=
  (List.range (hay.toList.length + 1)).any fun i =>
    (hay.toList.drop i).take need.toList.length == need.toList

/-- Modelled from the spec (§4.5 rule 2), not from the source: case-insensitive
containment of the event's fault text inside the FaultCode description — the
refinement target the claim asserts for `classified_as_edges`. -/
def spec_ci_containment (descr fault : String) : Bool :=
  containsSub (pyLower descr) (pyLower fault)

/-! ### Cleanup (`pipeline.py:417-444` and `extractor.py:605-618`)

Both functions loop `MATCH (n:label) ... DETACH DELETE n` in batches of 500
until no node with the label remains; the net effect on the node set is the
removal of every node carrying one of the listed labels. Nodes are modelled
with a single label, as created by the loaders. -/

/-- A graph node: identity, label, and property map. -/
structure GraphNode where
  nodeId : Nat
  label : String
  props : List (String × String)
deriving DecidableEq

/-- `EXTRACTED_LABELS` of `extractor.py:12`. -/
def EXTRACTED_LABELS : List String :=
  ["FaultCode", "PartNumber", "OperatingLimit", "MaintenanceTask", "ATAChapter"]

/-- `EXTRACTED_LABELS` of `pipeline.py:16` (used by `clear_enrichment_data`). -/
def PIPELINE_EXTRACTED_LABELS : List String := ["OperatingLimit"]

/-- The labels swept by `clear_enrichment_data` (`pipeline.py:419,434`). -/
def enrichmentLabels : List String :=
  ["Document", "Chunk"] ++ PIPELINE_EXTRACTED_LABELS ++ ["__Entity__", "__KGBuilder__"]

/-- The base labels created by the operational-graph loader
(`loader.py:42-148`). -/
def operationalLabels : List String :=
  ["Aircraft", "System", "Component", "Sensor", "Airport", "Flight", "Delay",
   "MaintenanceEvent", "Removal"]

/-- `clear_enrichment_data` (`pipeline.py:417-444`): delete every node whose
label is a Document/Chunk/extracted/bookkeeping label. -/
def clear_enrichment_data (nodes : List GraphNode) : List GraphNode :=
  nodes.filter fun n => decide (n.label ∉ enrichmentLabels)

/-- `clear_extracted` (`extractor.py:605-618`): delete every node carrying one
of the five extracted-entity labels. -/
def clear_extracted (nodes : List GraphNode) : List GraphNode :=
  nodes.filter fun n => decide (n.label ∉ EXTRACTED_LABELS)

/-! ### Concrete scenarios used by witnesses and counterexamples -/

/-- Chunk A's fault-code observation of the spec's merge scenario (§8). -/
def c1AObs : FaultCodeObs :=
  { code := some "ENG-OVH-001", description := some "Overheat",
    severity_levels := some ["MINOR"] }

/-- Chunk B's fault-code observation of the spec's merge scenario (§8). -/
def c1BObs : FaultCodeObs :=
  { code := some "ENG-OVH-001",
    description := some "Engine overheat detected during climb",
    severity_levels := some ["CRITICAL"] }

def c1A : Extraction :=
  { documentId := "docA", chunkIndex := 0, aircraftType := "A320-200",
    entities := { fault_codes := [c1AObs] } }

def c1B : Extraction :=
  { documentId := "docB", chunkIndex := 3, aircraftType := "A320-200",
    entities := { fault_codes := [c1BObs] } }

/-- The record the deduplicator produces for the spec's merge scenario. -/
def c1Rec : FaultCodeRec :=
  { code := "ENG-OVH-001", description := "Engine overheat detected during climb",
    severity_levels := ["MINOR"], ata_chapter := "", immediate_action := "",
    sources := [{ documentId := "docA", chunkIndex := 0 },
                { documentId := "docB", chunkIndex := 3 }] }

/-- An event whose free-text fault is contained in a FaultCode description. -/
def c2Me : MaintenanceEvent := { eventId := "ME-1", fault := some "overheat" }

def c2Fc : FaultCodeNode :=
  { code := "ENG-OVH-001", description := "Engine overheat detected during climb" }

/-- One chunk reporting the same fault code twice. -/
def c3Obs : FaultCodeObs := { code := some "FC-1", description := some "fan blade crack" }

def c3E : Extraction :=
  { documentId := "doc1", chunkIndex := 5, aircraftType := "A320-200",
    entities := { fault_codes := [c3Obs, c3Obs] } }

def c3Src : Source := { documentId := "doc1", chunkIndex := 5 }

def c3Rec : FaultCodeRec :=
  { code := "FC-1", description := "fan blade crack", severity_levels := [],
    ata_chapter := "", immediate_action := "", sources := [c3Src, c3Src] }

/-- Two operating-limit observations of the same limit: the first supplies only
the max bound, the later one only the min bound. -/
def c4Obs1 : OperatingLimitObs :=
  { parameter := some "EGT", unit := some "C", regime := some "takeoff",
    min_value := none, max_value := some 950 }

def c4Obs2 : OperatingLimitObs :=
  { parameter := some "EGT", regime := some "takeoff",
    min_value := some 100, max_value := none }

def c4E1 : Extraction :=
  { documentId := "amm", chunkIndex := 0, aircraftType := "A320-200",
    entities := { operating_limits := [c4Obs1] } }

def c4E2 : Extraction :=
  { documentId := "amm", chunkIndex := 1, aircraftType := "A320-200",
    entities := { operating_limits := [c4Obs2] } }

def c4Rec : OperatingLimitRec :=
  { limitId := "egt_takeoff_a320-200", parameter := "EGT", unit := "C",
    regime := "takeoff", min_value := some 100, max_value := some 950,
    aircraftType := "A320-200",
    sources := [{ documentId := "amm", chunkIndex := 0 },
                { documentId := "amm", chunkIndex := 1 }] }

/-- Part-number observations whose second component name is strictly longer. -/
def c5Obs1 : PartNumberObs := { number := some "PN-9", component_name := some "Pump" }

def c5Obs2 : PartNumberObs :=
  { number := some "PN-9", component_name := some "Hydraulic Pump Assembly" }

def c5E1 : Extraction :=
  { documentId := "m", chunkIndex := 0, aircraftType := "A320-200",
    entities := { part_numbers := [c5Obs1] } }

def c5E2 : Extraction :=
  { documentId := "m", chunkIndex := 1, aircraftType := "A320-200",
    entities := { part_numbers := [c5Obs2] } }

/-- Fault-code observations for the longer-wins witness. -/
def c5FObs1 : FaultCodeObs := { code := some "C5-1", description := some "short" }

def c5FObs2 : FaultCodeObs :=
  { code := some "C5-1", description := some "a much longer description" }

def c5FE1 : Extraction :=
  { documentId := "m", chunkIndex := 0, aircraftType := "A320-200",
    entities := { fault_codes := [c5FObs1] } }

def c5FE2 : Extraction :=
  { documentId := "m", chunkIndex := 1, aircraftType := "A320-200",
    entities := { fault_codes := [c5FObs2] } }

def c5FRec : FaultCodeRec :=
  { code := "C5-1", description := "a much longer description", severity_levels := [],
    ata_chapter := "", immediate_action := "",
    sources := [{ documentId := "m", chunkIndex := 0 },
                { documentId := "m", chunkIndex := 1 }] }

/-- Two observations of the same parameter/regime whose aircraft types differ
only by case and space-vs-underscore. -/
def c6Obs : OperatingLimitObs := { parameter := some "EGT", regime := some "takeoff" }

def c6E1 : Extraction :=
  { documentId := "a", chunkIndex := 0, aircraftType := "A320 200",
    entities := { operating_limits := [c6Obs] } }

def c6E2 : Extraction :=
  { documentId := "b", chunkIndex := 0, aircraftType := "a320_200",
    entities := { operating_limits := [c6Obs] } }

/-- A maintenance task whose reported id is whitespace-only (truthy in Python
but stripping to the empty string). -/
def c7Obs : MaintenanceTaskObs :=
  { task_id := some " ", description := some "replace hydraulic pump" }

def c7E : Extraction :=
  { documentId := "amm", chunkIndex := 2, aircraftType := "A320-200",
    entities := { maintenance_tasks := [c7Obs] } }

def c7Rec : MaintenanceTaskRec :=
  { taskId := "", description := "replace hydraulic pump", interval := none,
    intervalUnit := "", durationHours := none, personnelCount := none,
    personnelType := "", sources := [{ documentId := "amm", chunkIndex := 2 }] }

/-- A maintenance task with a well-formed id, for the no-empty-key witness. -/
def c7WObs : MaintenanceTaskObs :=
  { task_id := some "ENG-TC-001", description := some "borescope inspection" }

def c7WE : Extraction :=
  { documentId := "amm", chunkIndex := 9, aircraftType := "B737-800",
    entities := { maintenance_tasks := [c7WObs] } }

/-- Operational and enrichment nodes for the cleanup witness. -/
def c9Air : GraphNode :=
  { nodeId := 1, label := "Aircraft", props := [("model", "A320-200")] }

def c9Chunk : GraphNode := { nodeId := 2, label := "Chunk", props := [] }

def c9Nodes : List GraphNode := [c9Air, c9Chunk]

/-- Part-number observations for the first-wins witness. -/
def c10P1 : PartNumberObs :=
  { number := some "V25-FM-2100", component_name := some "Fuel Manifold",
    ata_reference := some "72-01" }

def c10P2 : PartNumberObs :=
  { number := some "V25-FM-2100", component_name := some "Fuel Manifold Assembly",
    ata_reference := some "73-00" }

def c10E1 : Extraction :=
  { documentId := "amm", chunkIndex := 0, aircraftType := "A320-200",
    entities := { part_numbers := [c10P1] } }

def c10E2 : Extraction :=
  { documentId := "amm", chunkIndex := 1, aircraftType := "A320-200",
    entities := { part_numbers := [c10P2] } }

def c10Rec : PartNumberRec :=
  { number := "V25-FM-2100", component_name := "Fuel Manifold",
    ata_reference := "72-01",
    sources := [{ documentId := "amm", chunkIndex := 0 },
                { documentId := "amm", chunkIndex := 1 }] }

/-! ### Lemmas: the accumulator dict -/

theorem alookup_upsert_self {ρ : Type} (m : AList ρ) (k : String) (v₀ : ρ) (f : ρ → ρ) :
    alookup (upsert m k v₀ f) k =
      some (match alookup m k with | some r => f r | none => v₀) := by
  induction m with
  | nil => simp [upsert, alookup]
  | cons p rest ih =>
    obtain ⟨k₁, v⟩ := p
    by_cases h : k₁ = k
    · subst h; simp [upsert, alookup]
    · simp [upsert, alookup, h, ih]

theorem alookup_upsert_ne {ρ : Type} (m : AList ρ) (k k' : String) (v₀ : ρ) (f : ρ → ρ)
    (h : k' ≠ k) : alookup (upsert m k' v₀ f) k = alookup m k := by
  induction m with
  | nil => simp [upsert, alookup, h]
  | cons p rest ih =>
    obtain ⟨k₁, v⟩ := p
    by_cases h₁ : k₁ = k'
    · subst h₁; simp [upsert, alookup, h]
    · simp [upsert, alookup, h₁, ih]

/-- Characterization of the dedup fold: the record stored under `k` is the
merge of exactly the matching-key observations, in processing order. -/
theorem alookup_foldObs {σ ρ : Type} [DecidableEq σ] (keyFn : σ → Option String)
    (mkFn : σ → ρ) (mergeFn : ρ → σ → ρ) (os : List σ) (m : AList ρ) (k : String) :
    alookup (foldObs keyFn mkFn mergeFn m os) k =
      match alookup m k with
      | some r => some ((matching keyFn k os).foldl mergeFn r)
      | none => mergedOf mkFn mergeFn (matching keyFn k os) := by
  induction os generalizing m with
  | nil =>
    simp only [foldObs, List.foldl_nil, matching, List.filter_nil]
    cases alookup m k <;> simp [mergedOf]
  | cons o os ih =>
    have hstep : foldObs keyFn mkFn mergeFn m (o :: os) =
        foldObs keyFn mkFn mergeFn (stepObs keyFn mkFn mergeFn m o) os := rfl
    rw [hstep, ih]
    rcases hk : keyFn o with _ | k'
    · have hm : matching keyFn k (o :: os) = matching keyFn k os := by
        simp [matching, List.filter, hk]
      simp [stepObs, hk, hm]
    · by_cases hkk : k' = k
      · rw [hkk] at hk
        have hm : matching keyFn k (o :: os) = o :: matching keyFn k os := by
          simp [matching, List.filter, hk]
        rw [hm]
        simp only [stepObs, hk, alookup_upsert_self]
        cases halm : alookup m k with
        | some r => simp
        | none => cases matching keyFn k os <;> simp [mergedOf]
      · have hm : matching keyFn k (o :: os) = matching keyFn k os := by
          simp [matching, List.filter, hk, hkk]
        simp only [stepObs, hk]
        rw [alookup_upsert_ne _ _ _ _ _ hkk, hm]

/-- When no observation can receive key `k`, nothing is stored under `k`. -/
theorem alookup_foldObs_of_no_key {σ ρ : Type} [DecidableEq σ] (keyFn : σ → Option String)
    (mkFn : σ → ρ) (mergeFn : ρ → σ → ρ) (os : List σ) (k : String)
    (h : ∀ o ∈ os, keyFn o ≠ some k) :
    alookup (foldObs keyFn mkFn mergeFn [] os) k = none := by
  rw [alookup_foldObs]
  have hm : matching keyFn k os = [] := by
    rw [matching, List.filter_eq_nil_iff]
    intro o ho
    simpa using h o ho
  simp [alookup, hm, mergedOf]

/-! ### Lemmas: field behavior under merge folds -/

/-- A field the merge function never touches keeps its initial value. -/
theorem foldl_field_const {σ ρ α : Type} (f : ρ → σ → ρ) (g : ρ → α)
    (h : ∀ r o, g (f r o) = g r) :
    ∀ (os : List σ) (r : ρ), g (os.foldl f r) = g r := by
  intro os
  induction os with
  | nil => intro r; rfl
  | cons o os ih => intro r; rw [List.foldl_cons, ih, h]

/-- A field to which the merge function appends the observation's source
accumulates the sources of all folded observations, in order. -/
theorem foldl_field_append {σ ρ α : Type} (f : ρ → σ → ρ) (g : ρ → List α) (t : σ → α)
    (h : ∀ r o, g (f r o) = g r ++ [t o]) :
    ∀ (os : List σ) (r : ρ), g (os.foldl f r) = g r ++ os.map t := by
  intro os
  induction os with
  | nil => intro r; simp
  | cons o os ih => intro r; rw [List.foldl_cons, ih, h]; simp

/-- A longer-wins field dominates the lengths of all folded observations. -/
theorem foldl_field_longest {σ ρ : Type} (f : ρ → σ → ρ) (g : ρ → String) (t : σ → String)
    (h : ∀ r o, g (f r o) = if (t o).length > (g r).length then t o else g r) :
    ∀ (os : List σ) (r : ρ),
      (g r).length ≤ (g (os.foldl f r)).length ∧
      ∀ o ∈ os, (t o).length ≤ (g (os.foldl f r)).length := by
  intro os
  induction os with
  | nil => intro r; simp
  | cons o os ih =>
    intro r
    rw [List.foldl_cons]
    obtain ⟨h₁, h₂⟩ := ih (f r o)
    constructor
    · refine le_trans ?_ h₁
      rw [h]; split <;> omega
    · intro o' ho'
      rcases List.mem_cons.mp ho' with h' | h'
      · subst h'
        refine le_trans ?_ h₁
        rw [h]; split <;> omega
      · exact h₂ o' h'

/-- A last-non-null-wins field equals the fold of `lastSomeStep` over the
observations' supplied values. -/
theorem foldl_field_lastSome {σ ρ α : Type} (f : ρ → σ → ρ) (g : ρ → Option α)
    (t : σ → Option α) (h : ∀ r o, g (f r o) = lastSomeStep (g r) (t o)) :
    ∀ (os : List σ) (r : ρ), g (os.foldl f r) = (os.map t).foldl lastSomeStep (g r) := by
  intro os
  induction os with
  | nil => intro r; rfl
  | cons o os ih => intro r; rw [List.foldl_cons, ih, h]; rfl

theorem lastSome_cons {α : Type} (x : Option α) (l : List (Option α)) :
    lastSome (x :: l) = l.foldl lastSomeStep x := by
  have hx : lastSomeStep none x = x := by cases x <;> rfl
  simp [lastSome, List.foldl_cons, hx]

/-! ### Bridge: `collect_and_deduplicate` projects to the flattened folds -/

theorem foldl_process_fault_codes (all_extractions : List Extraction) (st : DedupState) :
    (all_extractions.foldl processExtraction st).fault_codes =
      foldObs fcKey fcMk fcMerge st.fault_codes (fcStream all_extractions) := by
  induction all_extractions generalizing st with
  | nil => rfl
  | cons e rest ih =>
    rw [List.foldl_cons, ih]
    simp [fcStream, processExtraction, foldObs, List.foldl_append, List.foldl_map]

theorem foldl_process_part_numbers (all_extractions : List Extraction) (st : DedupState) :
    (all_extractions.foldl processExtraction st).part_numbers =
      foldObs pnKey pnMk pnMerge st.part_numbers (pnStream all_extractions) := by
  induction all_extractions generalizing st with
  | nil => rfl
  | cons e rest ih =>
    rw [List.foldl_cons, ih]
    simp [pnStream, processExtraction, foldObs, List.foldl_append, List.foldl_map]

theorem foldl_process_operating_limits (all_extractions : List Extraction) (st : DedupState) :
    (all_extractions.foldl processExtraction st).operating_limits =
      foldObs olKey olMk olMerge st.operating_limits (olStream all_extractions) := by
  induction all_extractions generalizing st with
  | nil => rfl
  | cons e rest ih =>
    rw [List.foldl_cons, ih]
    simp [olStream, processExtraction, foldObs, List.foldl_append, List.foldl_map]

theorem foldl_process_maintenance_tasks (all_extractions : List Extraction) (st : DedupState) :
    (all_extractions.foldl processExtraction st).maintenance_tasks =
      foldObs mtKey mtMk mtMerge st.maintenance_tasks (mtStream all_extractions) := by
  induction all_extractions generalizing st with
  | nil => rfl
  | cons e rest ih =>
    rw [List.foldl_cons, ih]
    simp [mtStream, processExtraction, foldObs, List.foldl_append, List.foldl_map]

theorem foldl_process_ata_chapters (all_extractions : List Extraction) (st : DedupState) :
    (all_extractions.foldl processExtraction st).ata_chapters =
      foldObs ataKey ataMk ataMerge st.ata_chapters (ataStream all_extractions) := by
  induction all_extractions generalizing st with
  | nil => rfl
  | cons e rest ih =>
    rw [List.foldl_cons, ih]
    simp [ataStream, processExtraction, foldObs, List.foldl_append, List.foldl_map]

theorem alookup_collect_fc (all_extractions : List Extraction) (k : String) :
    alookup (collect_and_deduplicate all_extractions).fault_codes k =
      mergedOf fcMk fcMerge (fcMatching all_extractions k) := by
  rw [collect_and_deduplicate, foldl_process_fault_codes, alookup_foldObs]
  rfl

theorem alookup_collect_pn (all_extractions : List Extraction) (k : String) :
    alookup (collect_and_deduplicate all_extractions).part_numbers k =
      mergedOf pnMk pnMerge (pnMatching all_extractions k) := by
  rw [collect_and_deduplicate, foldl_process_part_numbers, alookup_foldObs]
  rfl

theorem alookup_collect_ol (all_extractions : List Extraction) (k : String) :
    alookup (collect_and_deduplicate all_extractions).operating_limits k =
      mergedOf olMk olMerge (olMatching all_extractions k) := by
  rw [collect_and_deduplicate, foldl_process_operating_limits, alookup_foldObs]
  rfl

theorem alookup_collect_mt (all_extractions : List Extraction) (k : String) :
    alookup (collect_and_deduplicate all_extractions).maintenance_tasks k =
      mergedOf mtMk mtMerge (mtMatching all_extractions k) := by
  rw [collect_and_deduplicate, foldl_process_maintenance_tasks, alookup_foldObs]
  rfl

theorem alookup_collect_ata (all_extractions : List Extraction) (k : String) :
    alookup (collect_and_deduplicate all_extractions).ata_chapters k =
      mergedOf ataMk ataMerge (ataMatching all_extractions k) := by
  rw [collect_and_deduplicate, foldl_process_ata_chapters, alookup_foldObs]
  rfl

/-! ### Step behavior of the five merge functions, field by field -/

theorem fcMerge_severity (r : FaultCodeRec) (o : Ctx × FaultCodeObs) :
    (fcMerge r o).severity_levels = r.severity_levels := by
  simp only [fcMerge]; split <;> rfl

theorem fcMerge_ata_chapter (r : FaultCodeRec) (o : Ctx × FaultCodeObs) :
    (fcMerge r o).ata_chapter = r.ata_chapter := by
  simp only [fcMerge]; split <;> rfl

theorem fcMerge_immediate_action (r : FaultCodeRec) (o : Ctx × FaultCodeObs) :
    (fcMerge r o).immediate_action = r.immediate_action := by
  simp only [fcMerge]; split <;> rfl

theorem fcMerge_sources (r : FaultCodeRec) (o : Ctx × FaultCodeObs) :
    (fcMerge r o).sources = r.sources ++ [o.1.source] := by
  simp only [fcMerge]; split <;> rfl

theorem fcMerge_description (r : FaultCodeRec) (o : Ctx × FaultCodeObs) :
    (fcMerge r o).description =
      if (o.2.description.getD "").length > r.description.length then
        o.2.description.getD ""
      else r.description := by
  simp only [fcMerge]; split <;> rfl

theorem olMerge_min (r : OperatingLimitRec) (o : Ctx × OperatingLimitObs) :
    (olMerge r o).min_value = lastSomeStep r.min_value o.2.min_value := by
  simp only [olMerge]
  cases o.2.min_value <;> cases o.2.max_value <;> rfl

theorem olMerge_max (r : OperatingLimitRec) (o : Ctx × OperatingLimitObs) :
    (olMerge r o).max_value = lastSomeStep r.max_value o.2.max_value := by
  simp only [olMerge]
  cases o.2.min_value <;> cases o.2.max_value <;> rfl

theorem olMerge_sources (r : OperatingLimitRec) (o : Ctx × OperatingLimitObs) :
    (olMerge r o).sources = r.sources ++ [o.1.source] := by
  simp only [olMerge]
  cases o.2.min_value <;> cases o.2.max_value <;> rfl

theorem pnMerge_sources (r : PartNumberRec) (o : Ctx × PartNumberObs) :
    (pnMerge r o).sources = r.sources ++ [o.1.source] := rfl

theorem mtMerge_sources (r : MaintenanceTaskRec) (o : Ctx × MaintenanceTaskObs) :
    (mtMerge r o).sources = r.sources ++ [o.1.source] := rfl

theorem ataMerge_sources (r : ATAChapterRec) (o : Ctx × ATAChapterObs) :
    (ataMerge r o).sources = r.sources ++ [o.1.source] := by
  simp only [ataMerge]; split <;> rfl

theorem ataMerge_title (r : ATAChapterRec) (o : Ctx × ATAChapterObs) :
    (ataMerge r o).title =
      if (o.2.title.getD "").length > r.title.length then o.2.title.getD "" else r.title := by
  simp only [ataMerge]; split <;> rfl

/-! ### Lemmas: the Python string primitives -/

theorem string_eq_empty_iff (s : String) : s = "" ↔ s.toList = [] := by
  constructor
  · intro h; rw [h]; rfl
  · intro h
    have hs : s = String.mk s.toList := rfl
    rw [hs, h]

theorem string_ne_empty_iff (s : String) : s ≠ "" ↔ s.toList ≠ [] :=
  not_congr (string_eq_empty_iff s)

theorem string_append_left_cancel (a b c : String) (h : a ++ b = a ++ c) : b = c := by
  have hd := congrArg String.data h
  simp only [String.data_append] at hd
  exact congrArg String.mk (List.append_cancel_left hd)

theorem length_pos_of_ne_empty (s : String) (h : s ≠ "") : 0 < s.length := by
  cases s with
  | mk l =>
    cases l with
    | nil => simp at h
    | cons c cs => simp [String.length]

/-- Unfolding of `pyStrip` at the character-list level. -/
theorem pyStrip_toList (s : String) :
    (pyStrip s).toList = List.dropWhile isWs ((s.toList.reverse.dropWhile isWs).reverse) := rfl

/-- An element that fails the predicate is never dropped by `dropWhile`. -/
theorem mem_dropWhile_of_not {α : Type} (p : α → Bool) (l : List α) (c : α)
    (hc : c ∈ l) (hnc : p c = false) : c ∈ l.dropWhile p := by
  have h0 : c ∈ l.takeWhile p ++ l.dropWhile p := by
    rw [List.takeWhile_append_dropWhile]; exact hc
  rcases List.mem_append.mp h0 with h | h
  · have hp := List.mem_takeWhile_imp h
    rw [hnc] at hp
    cases hp
  · exact h

/-- A string with a non-whitespace character does not strip to empty. -/
theorem pyStrip_ne_empty (s : String) (h : ∃ c ∈ s.toList, isWs c = false) :
    pyStrip s ≠ "" := by
  obtain ⟨c, hc, hcw⟩ := h
  have h₁ : c ∈ s.toList.reverse.dropWhile isWs :=
    mem_dropWhile_of_not _ _ _ (List.mem_reverse.mpr hc) hcw
  have h₂ : c ∈ List.dropWhile isWs (s.toList.reverse.dropWhile isWs).reverse :=
    mem_dropWhile_of_not _ _ _ (List.mem_reverse.mpr h₁) hcw
  rw [Ne, string_eq_empty_iff, pyStrip_toList]
  intro hnil
  rw [hnil] at h₂
  exact absurd h₂ (List.not_mem_nil c)

/-- A non-empty stripped string starts with a non-whitespace character. -/
theorem pyStrip_head_not_ws (s : String) (h : pyStrip s ≠ "") :
    ∃ hne : (pyStrip s).toList ≠ [], isWs ((pyStrip s).toList.head hne) = false := by
  have hne : (pyStrip s).toList ≠ [] := (string_ne_empty_iff _).mp h
  refine ⟨hne, ?_⟩
  have hd : (pyStrip s).toList =
      List.dropWhile isWs ((s.toList.reverse.dropWhile isWs).reverse) := pyStrip_toList s
  exact List.head_dropWhile_not isWs (s.toList.reverse.dropWhile isWs).reverse hne

/-- Stripping an already-stripped non-empty string stays non-empty. -/
theorem pyStrip_pyStrip_ne_empty (s : String) (h : pyStrip s ≠ "") :
    pyStrip (pyStrip s) ≠ "" := by
  obtain ⟨hne, hhead⟩ := pyStrip_head_not_ws s h
  exact pyStrip_ne_empty _ ⟨_, List.head_mem hne, hhead⟩

theorem pyUnderscore_ne_empty (s : String) (h : s ≠ "") : pyUnderscore s ≠ "" := by
  rw [string_ne_empty_iff] at h ⊢
  simpa [pyUnderscore] using h

theorem pyLower_ne_empty (s : String) (h : s ≠ "") : pyLower s ≠ "" := by
  rw [string_ne_empty_iff] at h ⊢
  simpa [pyLower] using h

/-- The head of a non-empty list is among its first `n` elements, `0 < n`. -/
theorem head_mem_take {α : Type} (l : List α) (h : l ≠ []) (n : Nat) (hn : 0 < n) :
    l.head h ∈ l.take n := by
  cases l with
  | nil => exact absurd rfl h
  | cons c cs =>
    cases n with
    | zero => omega
    | succ m => simp

theorem pyStrip_pyTake_ne_empty (s : String) (h : pyStrip s ≠ "") (n : Nat) (hn : 0 < n) :
    pyStrip (pyTake n (pyStrip s)) ≠ "" := by
  obtain ⟨hne, hhead⟩ := pyStrip_head_not_ws s h
  apply pyStrip_ne_empty
  refine ⟨(pyStrip s).toList.head hne, ?_, hhead⟩
  have ht : (pyTake n (pyStrip s)).toList = (pyStrip s).toList.take n := rfl
  rw [ht]
  exact head_mem_take _ hne n hn

theorem pyJoin_cons₂ (sep x : String) (l : List String) (h : l ≠ []) :
    pyJoin sep (x :: l) = x ++ sep ++ pyJoin sep l := by
  cases l with
  | nil => exact absurd rfl h
  | cons y ys => rfl

theorem pyJoin_ne_empty (sep x : String) (l : List String) (h : x ≠ "") :
    pyJoin sep (x :: l) ≠ "" := by
  intro hc
  cases l with
  | nil => exact h hc
  | cons y ys =>
    have hlen := congrArg String.length hc
    rw [show pyJoin sep (x :: y :: ys) = x ++ sep ++ pyJoin sep (y :: ys) from rfl,
      String.length_append, String.length_append] at hlen
    have hx := length_pos_of_ne_empty x h
    have h0 : String.length "" = 0 := rfl
    omega

/-- `sep.join` determines the last component, given the same leading ones. -/
theorem pyJoin_snoc_inj (sep : String) (xs : List String) (x x' : String)
    (h : pyJoin sep (xs ++ [x]) = pyJoin sep (xs ++ [x'])) : x = x' := by
  induction xs with
  | nil => simpa [pyJoin] using h
  | cons y ys ih =>
    have h₁ : (ys ++ [x]) ≠ [] := by simp
    have h₂ : (ys ++ [x']) ≠ [] := by simp
    rw [List.cons_append, List.cons_append, pyJoin_cons₂ _ _ _ h₁, pyJoin_cons₂ _ _ _ h₂] at h
    rw [String.append_assoc, String.append_assoc] at h
    exact ih (string_append_left_cancel _ _ _
      (string_append_left_cancel _ _ _ h))

/-! ### Lemmas: canonical keys -/

theorem slugOf_ne_empty (s : String) (h : pyStrip s ≠ "") : slugOf s ≠ "" :=
  pyLower_ne_empty _ (pyUnderscore_ne_empty _ h)

/-- With all three parts non-blank, `_make_limit_id` is the underscore-join of
the three slugs, in order. -/
theorem make_limit_id_eq (p r a : String)
    (hp : pyStrip p ≠ "") (hr : pyStrip r ≠ "") (ha : pyStrip a ≠ "") :
    make_limit_id p r a = pyJoin "_" [slugOf p, slugOf r, slugOf a] := by
  simp [make_limit_id, List.filter, hp, hr, ha]

theorem make_limit_id_ne_empty (p r a : String) (hp : pyStrip p ≠ "") :
    make_limit_id p r a ≠ "" := by
  have hexp : make_limit_id p r a =
      pyJoin "_" (slugOf p :: ([r, a].filter fun q => decide (pyStrip q ≠ "")).map slugOf) := by
    simp [make_limit_id, List.filter, hp]
  rw [hexp]
  exact pyJoin_ne_empty _ _ _ (slugOf_ne_empty _ hp)

theorem make_limit_id_snoc (p r a : String) (ha : pyStrip a ≠ "") :
    make_limit_id p r a =
      pyJoin "_" ((([p, r].filter fun q => decide (pyStrip q ≠ "")).map slugOf)
        ++ [slugOf a]) := by
  rw [make_limit_id, show [p, r, a] = [p, r] ++ [a] from rfl, List.filter_append]
  simp [List.filter, ha]

/-- Aircraft types with distinct slugs always yield distinct limit keys. -/
theorem make_limit_id_aircraft_inj (p r a a' : String)
    (ha : pyStrip a ≠ "") (ha' : pyStrip a' ≠ "") (hs : slugOf a ≠ slugOf a') :
    make_limit_id p r a ≠ make_limit_id p r a' := by
  intro h
  rw [make_limit_id_snoc p r a ha, make_limit_id_snoc p r a' ha'] at h
  exact hs (pyJoin_snoc_inj _ _ _ _ h)

theorem fcKey_ne_some_empty (o : Ctx × FaultCodeObs) : fcKey o ≠ some "" := by
  by_cases hc : pyStrip (o.2.code.getD "") = "" <;> simp [fcKey, hc]

theorem pnKey_ne_some_empty (o : Ctx × PartNumberObs) : pnKey o ≠ some "" := by
  by_cases hc : pyStrip (o.2.number.getD "") = "" <;> simp [pnKey, hc]

theorem ataKey_ne_some_empty (o : Ctx × ATAChapterObs) : ataKey o ≠ some "" := by
  by_cases hc : pyStrip (o.2.chapter.getD "") = "" <;> simp [ataKey, hc]

theorem olKey_ne_some_empty (o : Ctx × OperatingLimitObs) : olKey o ≠ some "" := by
  by_cases hp : pyStrip (o.2.parameter.getD "") = ""
  · simp [olKey, hp]
  · by_cases hr : pyStrip (o.2.regime.getD "") = ""
    · simp [olKey, hp, hr]
    · have hne : make_limit_id (pyStrip (o.2.parameter.getD ""))
          (pyStrip (o.2.regime.getD "")) o.1.aircraftType ≠ "" :=
        make_limit_id_ne_empty _ _ _ (pyStrip_pyStrip_ne_empty _ hp)
      simp [olKey, hp, hr, hne]

/-- A merged record's sources are exactly the sources of its matching
observations, in processing order. -/
theorem mergedOf_sources {σ ρ : Type} (mkFn : σ → ρ) (mergeFn : ρ → σ → ρ)
    (srcOf : σ → Source) (gS : ρ → List Source)
    (hmk : ∀ o, gS (mkFn o) = [srcOf o])
    (hmerge : ∀ r o, gS (mergeFn r o) = gS r ++ [srcOf o])
    (os : List σ) (r : ρ) (h : mergedOf mkFn mergeFn os = some r) :
    gS r = os.map srcOf := by
  cases os with
  | nil => cases h
  | cons o rest =>
    simp only [mergedOf, Option.some.injEq] at h
    subst h
    rw [foldl_field_append mergeFn gS srcOf hmerge rest (mkFn o), hmk]
    simp

/-- When no observation can produce key `""`, nothing matches it. -/
theorem matching_empty_key_nil {σ : Type} [DecidableEq σ] (keyFn : σ → Option String)
    (os : List σ) (h : ∀ o ∈ os, keyFn o ≠ some "") : matching keyFn "" os = [] := by
  rw [matching, List.filter_eq_nil_iff]
  intro o ho
  simpa using h o ho

/-- Folding part-number merges only ever appends to `sources`. -/
theorem foldl_pnMerge (os : List (Ctx × PartNumberObs)) (r : PartNumberRec) :
    os.foldl pnMerge r = { r with sources := r.sources ++ os.map fun o => o.1.source } := by
  induction os generalizing r with
  | nil => simp
  | cons o os ih =>
    rw [List.foldl_cons, ih]
    simp [pnMerge]

/-- Folding maintenance-task merges only ever appends to `sources`. -/
theorem foldl_mtMerge (os : List (Ctx × MaintenanceTaskObs)) (r : MaintenanceTaskRec) :
    os.foldl mtMerge r = { r with sources := r.sources ++ os.map fun o => o.1.source } := by
  induction os generalizing r with
  | nil => simp
  | cons o os ih =>
    rw [List.foldl_cons, ih]
    simp [mtMerge]

/-- With a well-formed task id, the maintenance-task key is never empty. -/
theorem mtKey_ne_some_empty (o : Ctx × MaintenanceTaskObs)
    (hgood : goodTaskId o.2.task_id = true) : mtKey o ≠ some "" := by
  by_cases hd : pyStrip (o.2.description.getD "") = ""
  · simp [mtKey, hd]
  · have hk : make_task_id o.2.task_id (pyStrip (o.2.description.getD "")) ≠ "" := by
      rw [make_task_id]
      by_cases ht : pyTruthy o.2.task_id = true
      · rw [if_pos ht]
        rcases hti : o.2.task_id with _ | t
        · rw [hti] at ht; cases ht
        · rw [hti] at ht hgood
          simp only [pyTruthy, decide_eq_true_eq] at ht
          simp only [goodTaskId, Bool.or_eq_true, beq_iff_eq, Bool.not_eq_eq_eq_not,
            Bool.not_true, beq_eq_false_iff_ne] at hgood
          rcases hgood with h | h
          · exact absurd h ht
          · simpa using h
      · rw [if_neg ht]
        exact pyLower_ne_empty _ (pyUnderscore_ne_empty _
          (pyStrip_pyTake_ne_empty _ hd 60 (by omega)))
    simp [mtKey, hd, hk]

/-! ## Claims -/

/-- C1 (counterexample): in the spec's own scenario the merged FaultCode
carries chunk A's severity list `["MINOR"]`, not the list `["CRITICAL"]`
supplied by the last observation processed — the merge loop never touches
`severity_levels` after the record is created. -/
theorem C1_cex_severity_not_last :
    (alookup (collect_and_deduplicate [c1A, c1B]).fault_codes "ENG-OVH-001").map
        FaultCodeRec.severity_levels = some (c1AObs.severity_levels.getD []) ∧
    (alookup (collect_and_deduplicate [c1A, c1B]).fault_codes "ENG-OVH-001").map
        FaultCodeRec.severity_levels ≠ some (c1BObs.severity_levels.getD []) := by
  decide

/-- C1 (amended): when observations share a canonical code, the merged
FaultCode's severity list equals the list supplied by the FIRST observation
processed; in the spec's scenario the merged record carries chunk A's
`["MINOR"]`. -/
theorem C1_severity_first_wins (all_extractions : List Extraction) (k : String)
    (r : FaultCodeRec)
    (h : alookup (collect_and_deduplicate all_extractions).fault_codes k = some r)
    (o : Ctx × FaultCodeObs) (ho : (fcMatching all_extractions k).head? = some o) :
    r.severity_levels = o.2.severity_levels.getD [] := by
  rw [alookup_collect_fc] at h
  cases hm : fcMatching all_extractions k with
  | nil => rw [hm] at h; cases h
  | cons o₁ rest =>
    rw [hm] at h ho
    simp only [mergedOf, Option.some.injEq] at h
    subst h
    simp only [List.head?_cons, Option.some.injEq] at ho
    subst ho
    rw [foldl_field_const fcMerge FaultCodeRec.severity_levels fcMerge_severity rest (fcMk o₁)]
    rfl

/-- C1 (witness): the amended claim, instantiated on the spec's scenario. -/
theorem C1_severity_first_wins_witness :
    alookup (collect_and_deduplicate [c1A, c1B]).fault_codes "ENG-OVH-001" = some c1Rec ∧
    (fcMatching [c1A, c1B] "ENG-OVH-001").head? = some (extractionCtx c1A, c1AObs) ∧
    c1Rec.severity_levels = (extractionCtx c1A, c1AObs).2.severity_levels.getD [] :=
  ⟨by decide, by decide,
    C1_severity_first_wins [c1A, c1B] "ENG-OVH-001" c1Rec (by decide) _ (by decide)⟩

/-- C2 (counterexample): an event whose non-empty fault text occurs
case-insensitively inside a FaultCode's description gets NO CLASSIFIED_AS
edge — the query matches `fc.code = me.fault` exactly and never reads the
description. -/
theorem C2_cex_containment_no_edge :
    spec_ci_containment c2Fc.description (c2Me.fault.getD "") = true ∧
    c2Me.fault.getD "" ≠ "" ∧
    (c2Me, c2Fc) ∉ classified_as_edges [c2Me] [c2Fc] := by
  decide

/-- C2 (amended): a CLASSIFIED_AS edge is created iff the event's fault text
is non-null, non-empty, and exactly (case-sensitively) equals the FaultCode's
`code` field; the description plays no role. -/
theorem C2_classified_as_exact_code (events : List MaintenanceEvent)
    (codes : List FaultCodeNode) (me : MaintenanceEvent) (fc : FaultCodeNode) :
    (me, fc) ∈ classified_as_edges events codes ↔
      me ∈ events ∧ fc ∈ codes ∧ me.fault = some fc.code ∧ fc.code ≠ "" := by
  simp only [classified_as_edges, List.mem_flatMap]
  constructor
  · rintro ⟨me', hme', hmem⟩
    rcases hf : me'.fault with _ | f
    · rw [hf] at hmem; cases hmem
    · simp only [hf] at hmem
      by_cases hfe : f = ""
      · rw [if_pos hfe] at hmem; cases hmem
      · rw [if_neg hfe] at hmem
        rcases List.mem_map.mp hmem with ⟨fc', hfc', heq⟩
        obtain ⟨hcmem, hcode⟩ := List.mem_filter.mp hfc'
        have hcf : fc'.code = f := by simpa using hcode
        have h1 : me' = me := congrArg Prod.fst heq
        have h2 : fc' = fc := congrArg Prod.snd heq
        subst h1; subst h2
        refine ⟨hme', hcmem, ?_, ?_⟩
        · rw [hcf]; exact hf
        · rw [hcf]; exact hfe
  · rintro ⟨hme, hfc, hfault, hne⟩
    refine ⟨me, hme, ?_⟩
    simp only [hfault]
    rw [if_neg hne]
    exact List.mem_map.mpr ⟨fc, List.mem_filter.mpr ⟨hfc, by simp⟩, rfl⟩

/-- C3 (counterexample): a single chunk reporting the same code in two
observations yields a duplicated provenance entry — two identical `sources`
entries for one distinct contributing chunk. -/
theorem C3_cex_duplicate_sources :
    (alookup (collect_and_deduplicate [c3E]).fault_codes "FC-1").map
        FaultCodeRec.sources = some [c3Src, c3Src] ∧
    ¬ ([c3Src, c3Src].Nodup) := by
  decide

/-- C3 (amended): for every canonical entity of every type, `sources` lists
exactly one entry per matching-key OBSERVATION, in processing order — one
entry per observation rather than per distinct chunk, so a chunk reporting
the same key twice contributes two identical entries. -/
theorem C3_sources_per_observation (all_extractions : List Extraction) :
    (∀ k r, alookup (collect_and_deduplicate all_extractions).fault_codes k = some r →
      r.sources = (fcMatching all_extractions k).map fun o => o.1.source) ∧
    (∀ k r, alookup (collect_and_deduplicate all_extractions).part_numbers k = some r →
      r.sources = (pnMatching all_extractions k).map fun o => o.1.source) ∧
    (∀ k r, alookup (collect_and_deduplicate all_extractions).operating_limits k = some r →
      r.sources = (olMatching all_extractions k).map fun o => o.1.source) ∧
    (∀ k r, alookup (collect_and_deduplicate all_extractions).maintenance_tasks k = some r →
      r.sources = (mtMatching all_extractions k).map fun o => o.1.source) ∧
    (∀ k r, alookup (collect_and_deduplicate all_extractions).ata_chapters k = some r →
      r.sources = (ataMatching all_extractions k).map fun o => o.1.source) := by
  refine ⟨?_, ?_, ?_, ?_, ?_⟩
  · intro k r h
    rw [alookup_collect_fc] at h
    exact mergedOf_sources fcMk fcMerge (fun o => o.1.source) FaultCodeRec.sources
      (fun o => rfl) fcMerge_sources _ r h
  · intro k r h
    rw [alookup_collect_pn] at h
    exact mergedOf_sources pnMk pnMerge (fun o => o.1.source) PartNumberRec.sources
      (fun o => rfl) pnMerge_sources _ r h
  · intro k r h
    rw [alookup_collect_ol] at h
    exact mergedOf_sources olMk olMerge (fun o => o.1.source) OperatingLimitRec.sources
      (fun o => rfl) olMerge_sources _ r h
  · intro k r h
    rw [alookup_collect_mt] at h
    exact mergedOf_sources mtMk mtMerge (fun o => o.1.source) MaintenanceTaskRec.sources
      (fun o => rfl) mtMerge_sources _ r h
  · intro k r h
    rw [alookup_collect_ata] at h
    exact mergedOf_sources ataMk ataMerge (fun o => o.1.source) ATAChapterRec.sources
      (fun o => rfl) ataMerge_sources _ r h

/-- C3 (witness): the amended claim instantiated on the duplicate-report
scenario. -/
theorem C3_sources_per_observation_witness :
    alookup (collect_and_deduplicate [c3E]).fault_codes "FC-1" = some c3Rec ∧
    c3Rec.sources = (fcMatching [c3E] "FC-1").map fun o => o.1.source :=
  ⟨by decide, (C3_sources_per_observation [c3E]).1 "FC-1" c3Rec (by decide)⟩

/-- C4: a merged OperatingLimit's `min_value` and `max_value` each equal the
most recent non-null value supplied in processing order — a later non-null
bound overwrites, a later null bound leaves the stored bound unchanged. -/
theorem C4_bounds_last_non_null (all_extractions : List Extraction) (k : String)
    (r : OperatingLimitRec)
    (h : alookup (collect_and_deduplicate all_extractions).operating_limits k = some r) :
    r.min_value = lastSome ((olMatching all_extractions k).map fun o => o.2.min_value) ∧
    r.max_value = lastSome ((olMatching all_extractions k).map fun o => o.2.max_value) := by
  rw [alookup_collect_ol] at h
  cases hm : olMatching all_extractions k with
  | nil => rw [hm] at h; cases h
  | cons o rest =>
    rw [hm] at h
    simp only [mergedOf, Option.some.injEq] at h
    subst h
    constructor
    · rw [foldl_field_lastSome olMerge OperatingLimitRec.min_value
        (fun o => o.2.min_value) olMerge_min rest (olMk o), List.map_cons, lastSome_cons]
      rfl
    · rw [foldl_field_lastSome olMerge OperatingLimitRec.max_value
        (fun o => o.2.max_value) olMerge_max rest (olMk o), List.map_cons, lastSome_cons]
      rfl

/-- C4 (witness): the bound-merge claim instantiated on a two-chunk limit. -/
theorem C4_bounds_last_non_null_witness :
    alookup (collect_and_deduplicate [c4E1, c4E2]).operating_limits
      "egt_takeoff_a320-200" = some c4Rec ∧
    (c4Rec.min_value =
        lastSome ((olMatching [c4E1, c4E2] "egt_takeoff_a320-200").map
          fun o => o.2.min_value) ∧
      c4Rec.max_value =
        lastSome ((olMatching [c4E1, c4E2] "egt_takeoff_a320-200").map
          fun o => o.2.max_value)) :=
  ⟨by decide, C4_bounds_last_non_null [c4E1, c4E2] "egt_takeoff_a320-200" c4Rec (by decide)⟩

/-- C5 (counterexample): a PartNumber's `component_name` is NOT merged by
"keep the longer": the first observation's shorter name survives a later,
strictly longer one, so the merged length is below max(len(old), len(new)). -/
theorem C5_cex_component_name_not_longer :
    (alookup (collect_and_deduplicate [c5E1, c5E2]).part_numbers "PN-9").map
        PartNumberRec.component_name = some "Pump" ∧
    "Pump".length < (c5Obs2.component_name.getD "").length := by
  decide

/-- C5 (amended): the longer-of-old/new rule governs exactly the two fields
that have one — FaultCode `description` and ATAChapter `title`: the merged
field's length dominates every contributing observation's, and an observation
of equal (or smaller) length leaves the field unchanged. Other free-text
fields keep the first observation's value (see the first-wins claim). -/
theorem C5_longer_wins_description_title (all_extractions : List Extraction) :
    (∀ k r, alookup (collect_and_deduplicate all_extractions).fault_codes k = some r →
      ∀ o, o ∈ fcMatching all_extractions k →
        (o.2.description.getD "").length ≤ r.description.length) ∧
    (∀ k r, alookup (collect_and_deduplicate all_extractions).ata_chapters k = some r →
      ∀ o, o ∈ ataMatching all_extractions k →
        (o.2.title.getD "").length ≤ r.title.length) ∧
    (∀ (r : FaultCodeRec) (o : Ctx × FaultCodeObs),
      (o.2.description.getD "").length ≤ r.description.length →
      (fcMerge r o).description = r.description) ∧
    (∀ (r : ATAChapterRec) (o : Ctx × ATAChapterObs),
      (o.2.title.getD "").length ≤ r.title.length →
      (ataMerge r o).title = r.title) := by
  refine ⟨?_, ?_, ?_, ?_⟩
  · intro k r h o ho
    rw [alookup_collect_fc] at h
    cases hm : fcMatching all_extractions k with
    | nil => rw [hm] at h; cases h
    | cons o₁ rest =>
      rw [hm] at h ho
      simp only [mergedOf, Option.some.injEq] at h
      subst h
      obtain ⟨hbase, hall⟩ := foldl_field_longest fcMerge FaultCodeRec.description
        (fun o => o.2.description.getD "") fcMerge_description rest (fcMk o₁)
      rcases List.mem_cons.mp ho with h' | h'
      · subst h'
        exact hbase
      · exact hall o h'
  · intro k r h o ho
    rw [alookup_collect_ata] at h
    cases hm : ataMatching all_extractions k with
    | nil => rw [hm] at h; cases h
    | cons o₁ rest =>
      rw [hm] at h ho
      simp only [mergedOf, Option.some.injEq] at h
      subst h
      obtain ⟨hbase, hall⟩ := foldl_field_longest ataMerge ATAChapterRec.title
        (fun o => o.2.title.getD "") ataMerge_title rest (ataMk o₁)
      rcases List.mem_cons.mp ho with h' | h'
      · subst h'
        exact hbase
      · exact hall o h'
  · intro r o hle
    rw [fcMerge_description, if_neg (by omega)]
  · intro r o hle
    rw [ataMerge_title, if_neg (by omega)]

/-- C5 (witness): the longer-wins rule instantiated on a two-chunk FaultCode
whose second description is longer. -/
theorem C5_longer_wins_witness :
    alookup (collect_and_deduplicate [c5FE1, c5FE2]).fault_codes "C5-1" = some c5FRec ∧
    (extractionCtx c5FE1, c5FObs1) ∈ fcMatching [c5FE1, c5FE2] "C5-1" ∧
    ((extractionCtx c5FE1, c5FObs1).2.description.getD "").length ≤
      c5FRec.description.length :=
  ⟨by decide, by decide,
    (C5_longer_wins_description_title [c5FE1, c5FE2]).1 "C5-1" c5FRec (by decide) _
      (by decide)⟩

/-- C6 (counterexample): two observations with identical parameter and regime
and DIFFERENT non-blank aircraft types can still collide: slugging erases the
case and space-vs-underscore difference, so both receive the same key and the
deduplicator merges them into a single record. -/
theorem C6_cex_same_key_different_aircraft :
    make_limit_id "EGT" "takeoff" "A320 200" = make_limit_id "EGT" "takeoff" "a320_200" ∧
    ("A320 200" : String) ≠ "a320_200" ∧
    pyStrip "A320 200" ≠ "" ∧ pyStrip "a320_200" ≠ "" ∧
    (collect_and_deduplicate [c6E1, c6E2]).operating_limits.length = 1 := by
  decide

/-- C6 (amended): with all three parts non-blank the canonical key is the
underscore-join of the three slugs (trim, spaces→underscores, lower-case) in
parameter/regime/aircraft-type order; keys are distinct whenever the aircraft
types' SLUGS differ (equality of slugs, e.g. case or space-vs-underscore
differences, still collides). -/
theorem C6_limit_key_slug_join :
    (∀ p r a, pyStrip p ≠ "" → pyStrip r ≠ "" → pyStrip a ≠ "" →
      make_limit_id p r a = pyJoin "_" [slugOf p, slugOf r, slugOf a]) ∧
    (∀ p r a a', pyStrip a ≠ "" → pyStrip a' ≠ "" → slugOf a ≠ slugOf a' →
      make_limit_id p r a ≠ make_limit_id p r a') :=
  ⟨make_limit_id_eq, make_limit_id_aircraft_inj⟩

/-- C6 (witness): the key formula and slug-distinctness at concrete inputs. -/
theorem C6_limit_key_witness :
    make_limit_id "EGT" "takeoff" "A320-200" =
      pyJoin "_" [slugOf "EGT", slugOf "takeoff", slugOf "A320-200"] ∧
    make_limit_id "EGT" "takeoff" "A320-200" ≠ make_limit_id "EGT" "takeoff" "B737-800" :=
  ⟨C6_limit_key_slug_join.1 "EGT" "takeoff" "A320-200" (by decide) (by decide) (by decide),
   C6_limit_key_slug_join.2 "EGT" "takeoff" "A320-200" "B737-800" (by decide) (by decide)
     (by decide)⟩

/-- C7 (counterexample): a maintenance task whose reported id is truthy but
whitespace-only (here `" "`) IS merged under the empty-string key, although
its description (the key field checked by the loop) is non-blank — the
accumulator map does contain `""` as a canonical key. -/
theorem C7_cex_whitespace_task_id :
    alookup (collect_and_deduplicate [c7E]).maintenance_tasks "" = some c7Rec ∧
    c7Rec.taskId = "" ∧ c7Obs.task_id = some " " ∧
    pyStrip (c7Obs.description.getD "") ≠ "" := by
  decide

/-- C7 (amended): fault codes, part numbers, operating limits and ATA chapters
never merge under the empty key (blank-key observations are skipped), and
maintenance tasks never do PROVIDED no observation carries a truthy,
whitespace-only task id — that one hole in `_make_task_id` is the only way an
empty canonical key can arise. -/
theorem C7_no_empty_keys (all_extractions : List Extraction) :
    alookup (collect_and_deduplicate all_extractions).fault_codes "" = none ∧
    alookup (collect_and_deduplicate all_extractions).part_numbers "" = none ∧
    alookup (collect_and_deduplicate all_extractions).operating_limits "" = none ∧
    alookup (collect_and_deduplicate all_extractions).ata_chapters "" = none ∧
    ((∀ o ∈ mtStream all_extractions, goodTaskId o.2.task_id = true) →
      alookup (collect_and_deduplicate all_extractions).maintenance_tasks "" = none) := by
  refine ⟨?_, ?_, ?_, ?_, ?_⟩
  · rw [alookup_collect_fc, fcMatching,
      matching_empty_key_nil _ _ fun o _ => fcKey_ne_some_empty o]
    rfl
  · rw [alookup_collect_pn, pnMatching,
      matching_empty_key_nil _ _ fun o _ => pnKey_ne_some_empty o]
    rfl
  · rw [alookup_collect_ol, olMatching,
      matching_empty_key_nil _ _ fun o _ => olKey_ne_some_empty o]
    rfl
  · rw [alookup_collect_ata, ataMatching,
      matching_empty_key_nil _ _ fun o _ => ataKey_ne_some_empty o]
    rfl
  · intro hgood
    rw [alookup_collect_mt, mtMatching,
      matching_empty_key_nil _ _ fun o ho => mtKey_ne_some_empty o (hgood o ho)]
    rfl

/-- C7 (witness): no empty key on a run whose task ids are well-formed. -/
theorem C7_no_empty_keys_witness :
    alookup (collect_and_deduplicate [c7WE]).fault_codes "" = none ∧
    alookup (collect_and_deduplicate [c7WE]).part_numbers "" = none ∧
    alookup (collect_and_deduplicate [c7WE]).operating_limits "" = none ∧
    alookup (collect_and_deduplicate [c7WE]).ata_chapters "" = none ∧
    alookup (collect_and_deduplicate [c7WE]).maintenance_tasks "" = none :=
  ⟨(C7_no_empty_keys [c7WE]).1, (C7_no_empty_keys [c7WE]).2.1,
   (C7_no_empty_keys [c7WE]).2.2.1, (C7_no_empty_keys [c7WE]).2.2.2.1,
   (C7_no_empty_keys [c7WE]).2.2.2.2 (by decide)⟩

/-- C8: when the LLM call raises, or the call returns a response on which the
parse (including its repair pass) raises, `extract_entities_from_chunk`
returns a bundle whose five entity keys all map to `[]`; the Lean function is
total, the model of the source's catch-all `except` never propagating an
exception. -/
theorem C8_extraction_fails_soft (llm_call : CallResult String)
    (parseResponse : String → CallResult ParsedBundle)
    (h : llm_call = CallResult.raised ∨
      ∃ content, llm_call = CallResult.ok content ∧
        parseResponse content = CallResult.raised) :
    extract_entities_from_chunk llm_call parseResponse = EMPTY_RESULT ∧
    (extract_entities_from_chunk llm_call parseResponse).fault_codes = [] ∧
    (extract_entities_from_chunk llm_call parseResponse).part_numbers = [] ∧
    (extract_entities_from_chunk llm_call parseResponse).operating_limits = [] ∧
    (extract_entities_from_chunk llm_call parseResponse).maintenance_tasks = [] ∧
    (extract_entities_from_chunk llm_call parseResponse).ata_chapters = [] := by
  have hmain : extract_entities_from_chunk llm_call parseResponse = EMPTY_RESULT := by
    rcases h with h | ⟨content, hc, hp⟩
    · rw [h]; rfl
    · rw [hc]
      simp [extract_entities_from_chunk, hp]
  exact ⟨hmain, by rw [hmain]; rfl, by rw [hmain]; rfl, by rw [hmain]; rfl,
    by rw [hmain]; rfl, by rw [hmain]; rfl⟩

/-- C8 (witness): the soft-fail contract on the parse-failure branch — the
call returns an unparsable response and the parser raises exactly on that
response (and succeeds elsewhere). -/
theorem C8_extraction_fails_soft_witness :
    extract_entities_from_chunk (CallResult.ok "not json")
        (fun s => if s = "not json" then CallResult.raised
                  else CallResult.ok {}) = EMPTY_RESULT ∧
    (extract_entities_from_chunk (CallResult.ok "not json")
        (fun s => if s = "not json" then CallResult.raised
                  else CallResult.ok {})).fault_codes = [] ∧
    (extract_entities_from_chunk (CallResult.ok "not json")
        (fun s => if s = "not json" then CallResult.raised
                  else CallResult.ok {})).part_numbers = [] ∧
    (extract_entities_from_chunk (CallResult.ok "not json")
        (fun s => if s = "not json" then CallResult.raised
                  else CallResult.ok {})).operating_limits = [] ∧
    (extract_entities_from_chunk (CallResult.ok "not json")
        (fun s => if s = "not json" then CallResult.raised
                  else CallResult.ok {})).maintenance_tasks = [] ∧
    (extract_entities_from_chunk (CallResult.ok "not json")
        (fun s => if s = "not json" then CallResult.raised
                  else CallResult.ok {})).ata_chapters = [] :=
  C8_extraction_fails_soft (CallResult.ok "not json")
    (fun s => if s = "not json" then CallResult.raised else CallResult.ok {})
    (Or.inr ⟨"not json", rfl, by decide⟩)

/-- C9: the cleanup sweeps delete only Document/Chunk/extracted/bookkeeping
labels: every node whose label is an operational base label survives both
`clear_enrichment_data` and `clear_extracted` unchanged (same node, same
properties), and the operational sub-list of the graph is untouched. -/
theorem C9_clear_preserves_operational (nodes : List GraphNode) :
    ((clear_enrichment_data nodes).filter fun n => decide (n.label ∈ operationalLabels)) =
      (nodes.filter fun n => decide (n.label ∈ operationalLabels)) ∧
    ((clear_extracted nodes).filter fun n => decide (n.label ∈ operationalLabels)) =
      (nodes.filter fun n => decide (n.label ∈ operationalLabels)) ∧
    (∀ n ∈ nodes, n.label ∈ operationalLabels →
      n ∈ clear_enrichment_data nodes ∧ n ∈ clear_extracted nodes) := by
  have hd1 : ∀ l ∈ operationalLabels, l ∉ enrichmentLabels := by decide
  have hd2 : ∀ l ∈ operationalLabels, l ∉ EXTRACTED_LABELS := by decide
  refine ⟨?_, ?_, ?_⟩
  · rw [clear_enrichment_data, List.filter_filter]
    apply List.filter_congr
    intro n hn
    by_cases hop : n.label ∈ operationalLabels
    · simp [hop, hd1 _ hop]
    · simp [hop]
  · rw [clear_extracted, List.filter_filter]
    apply List.filter_congr
    intro n hn
    by_cases hop : n.label ∈ operationalLabels
    · simp [hop, hd2 _ hop]
    · simp [hop]
  · intro n hn hop
    exact ⟨List.mem_filter.mpr ⟨hn, by simp [hd1 _ hop]⟩,
           List.mem_filter.mpr ⟨hn, by simp [hd2 _ hop]⟩⟩

/-- C9 (witness): an Aircraft node survives both sweeps of a mixed graph. -/
theorem C9_clear_preserves_operational_witness :
    c9Air ∈ clear_enrichment_data c9Nodes ∧ c9Air ∈ clear_extracted c9Nodes :=
  (C9_clear_preserves_operational c9Nodes).2.2 c9Air (by decide) (by decide)

/-- C10: every descriptive field without an explicit merge rule keeps the
value of the FIRST observation processed for its key: a PartNumber's
`component_name`/`ata_reference`, a MaintenanceTask's interval, unit,
duration, personnel fields, and a FaultCode's `ata_chapter` and
`immediate_action`; for PartNumber and MaintenanceTask the merged record IS
the first observation's record with only `sources` extended. -/
theorem C10_first_wins_unruled_fields (all_extractions : List Extraction) :
    (∀ k r, alookup (collect_and_deduplicate all_extractions).part_numbers k = some r →
      ∀ o, (pnMatching all_extractions k).head? = some o →
        r.component_name = o.2.component_name.getD "" ∧
        r.ata_reference = o.2.ata_reference.getD "" ∧
        r = { pnMk o with
              sources := (pnMatching all_extractions k).map fun x => x.1.source }) ∧
    (∀ k r, alookup (collect_and_deduplicate all_extractions).maintenance_tasks k = some r →
      ∀ o, (mtMatching all_extractions k).head? = some o →
        r.interval = o.2.interval ∧
        r.intervalUnit = o.2.interval_unit.getD "" ∧
        r.durationHours = o.2.duration_hours ∧
        r.personnelCount = o.2.personnel_count ∧
        r.personnelType = o.2.personnel_type.getD "" ∧
        r = { mtMk o with
              sources := (mtMatching all_extractions k).map fun x => x.1.source }) ∧
    (∀ k r, alookup (collect_and_deduplicate all_extractions).fault_codes k = some r →
      ∀ o, (fcMatching all_extractions k).head? = some o →
        r.ata_chapter = o.2.ata_chapter.getD "" ∧
        r.immediate_action = o.2.immediate_action.getD "") := by
  refine ⟨?_, ?_, ?_⟩
  · intro k r h o ho
    rw [alookup_collect_pn] at h
    cases hm : pnMatching all_extractions k with
    | nil => rw [hm] at h; cases h
    | cons o₁ rest =>
      rw [hm] at h ho
      simp only [mergedOf, Option.some.injEq] at h
      subst h
      simp only [List.head?_cons, Option.some.injEq] at ho
      subst ho
      rw [foldl_pnMerge]
      exact ⟨rfl, rfl, rfl⟩
  · intro k r h o ho
    rw [alookup_collect_mt] at h
    cases hm : mtMatching all_extractions k with
    | nil => rw [hm] at h; cases h
    | cons o₁ rest =>
      rw [hm] at h ho
      simp only [mergedOf, Option.some.injEq] at h
      subst h
      simp only [List.head?_cons, Option.some.injEq] at ho
      subst ho
      rw [foldl_mtMerge]
      exact ⟨rfl, rfl, rfl, rfl, rfl, rfl⟩
  · intro k r h o ho
    rw [alookup_collect_fc] at h
    cases hm : fcMatching all_extractions k with
    | nil => rw [hm] at h; cases h
    | cons o₁ rest =>
      rw [hm] at h ho
      simp only [mergedOf, Option.some.injEq] at h
      subst h
      simp only [List.head?_cons, Option.some.injEq] at ho
      subst ho
      constructor
      · rw [foldl_field_const fcMerge FaultCodeRec.ata_chapter fcMerge_ata_chapter
          rest (fcMk o₁)]
        rfl
      · rw [foldl_field_const fcMerge FaultCodeRec.immediate_action
          fcMerge_immediate_action rest (fcMk o₁)]
        rfl

/-- C10 (witness): the first-wins behavior on a two-chunk PartNumber. -/
theorem C10_first_wins_witness :
    alookup (collect_and_deduplicate [c10E1, c10E2]).part_numbers
      "V25-FM-2100" = some c10Rec ∧
    (pnMatching [c10E1, c10E2] "V25-FM-2100").head? = some (extractionCtx c10E1, c10P1) ∧
    (c10Rec.component_name = (extractionCtx c10E1, c10P1).2.component_name.getD "" ∧
     c10Rec.ata_reference = (extractionCtx c10E1, c10P1).2.ata_reference.getD "" ∧
     c10Rec = { pnMk (extractionCtx c10E1, c10P1) with
        sources := (pnMatching [c10E1, c10E2] "V25-FM-2100").map fun x => x.1.source }) :=
  ⟨by decide, by decide,
    (C10_first_wins_unruled_fields [c10E1, c10E2]).1 "V25-FM-2100" c10Rec (by decide) _
      (by decide)⟩

end AircraftDB
